import Mathlib

/-!
Shallow embedding of `src/python/main_calculate_traj.py` (interaction-dataset
trajectory batch driver) together with theorems settling the frozen claims
about it.

Modelling conventions:
* The filesystem is a record `FS` of an `isdir` predicate and a partial map
  from path strings to file contents; `os.path.isfile p` becomes
  `(fs.files p).isSome`.
* Python exceptions (`raise IOError(...)`) become `Except String` results.
* `str(n).zfill(3)` becomes `zfill (toString n) 3`.
* The external curve fitter `bezier.bezier_points` (module `utils/bezier`, an
  external collaborator, not part of the core) is a parameter `bez : Fitter`
  of the functions that call it: every theorem holds for an arbitrary fitter.
* `dataset_reader.read_tracks` (external collaborator) reads the track
  collection stored in a csv file; we model a csv file as directly carrying
  its parsed track collection.
-/

/-- One observed motion state of a track: the `x`/`y` position fields that
`calculate_traj` reads. Coordinates are modelled as integers; no claim
depends on their arithmetic. -/
structure MotionState where
  x : Int
  y : Int
deriving DecidableEq, Repr

/-- A track: integer identifier plus the ordered motion states
(`car.motion_states` iterated in order). -/
structure Car where
  track_id : Nat
  motion_states : List MotionState
deriving DecidableEq, Repr

/-- A fitted Bezier curve: the control-point data returned by the fitter.
Its internal structure is irrelevant to every claim. -/
def BezCurve : Type := List (Int × Int)

instance : DecidableEq BezCurve := by
  unfold BezCurve
  infer_instance

/-- Modelled from the spec: `dataset_types.Traj` (module `utils/dataset_types`
is not under `src/`). Per the spec's data model, a Trajectory "holds the
source track identifier, a fitted curve representation, and a boolean failure
flag indicating the fit did not converge/succeed". -/
structure Traj where
  track_id : Nat
  traj_bez : BezCurve
  error : Bool
deriving DecidableEq

/-- Modelled from the spec: the constructor call `Traj(car)` — the Trajectory
carries the same track identifier as the input track; the failure flag
indicates failure, so a fresh trajectory starts with it unset. -/
def Traj.ofCar (car : Car) : Traj :=
  { track_id := car.track_id, traj_bez := [], error := false }

/-- The type of `bezier.bezier_points`: takes the `[xs, ys]` point lists and
returns `(err, control_points)`. -/
def Fitter : Type := List Int × List Int → Int × BezCurve

/-- Contents of a file in the modelled filesystem: a csv track file carrying
its parsed track collection (keyed association list, as a Python dict), or a
pickled trajectory collection. -/
inductive FileData where
  | csv (tracks : List (Nat × Car))
  | pickled (trajs : List (Nat × Traj))
deriving DecidableEq

/-- The filesystem state the script interacts with. -/
structure FS where
  isdir : String → Bool
  files : String → Option FileData

/-- Left-pad a string with zeros to the given width: Python `s.zfill(w)`
for non-negative numerals. -/
def zfill (s : String) (width : Nat) : String :=
  String.mk (List.replicate (width - s.length) '0' ++ s.data)

/-- Function `get_track_file_path` (source lines 26-34): path of the input csv track
file for a file number and scenario. -/
def get_track_file_path (file_number : Nat) (scenario_name : String) : String :=
  "../recorded_trackfiles" ++ "/" ++ scenario_name ++ "/" ++ "vehicle_tracks_"
    ++ zfill (toString file_number) 3 ++ ".csv"

/-- The trajectory-file name computed inside `get_traj_file_path`
(source line 45). -/
def get_traj_file_name (file_number : Nat) (scenario_name : String) : String :=
  "../trajectory_files" ++ "/" ++ scenario_name ++ "/" ++ "vehicle_tracks_"
    ++ zfill (toString file_number) 3 ++ "_trajs.pickle"

/-- Function `get_traj_file_path` (source lines 37-54): builds the output path, collects
an error line for each missing directory (trajectories root, scenario
subdirectory) into one string, and raises a single `IOError` carrying all of
them when any directory is missing; otherwise returns the path. -/
def get_traj_file_path (fs : FS) (file_number : Nat) (scenario_name : String) :
    Except String String :=
  let traj_dir := "../trajectory_files"
  let scenario_dir := traj_dir ++ "/" ++ scenario_name
  let traj_file_name := get_traj_file_name file_number scenario_name
  let error_string :=
    (if fs.isdir traj_dir then ""
     else "Did not find traj file directory \"" ++ traj_dir ++ "\"\n")
    ++ (if fs.isdir scenario_dir then ""
        else "Did not find scenario directory \"" ++ scenario_dir ++ "\"\n")
  if error_string ≠ "" then
    Except.error (error_string ++ "Type --help for help.")
  else
    Except.ok traj_file_name

/-- Function `get_track_dict` (source lines 57-73): raises `IOError` when the track
file is missing, otherwise loads the track collection from it
(`dataset_reader.read_tracks`, modelled as reading the stored tracks of a csv
file; on non-csv contents the external reader's behaviour is out of scope and
modelled as the empty collection). -/
def get_track_dict (fs : FS) (file_number : Nat) (scenario_name : String) :
    Except String (List (Nat × Car)) :=
  let track_file_name := get_track_file_path file_number scenario_name
  let error_string :=
    if (fs.files track_file_name).isSome then ""
    else "Did not find track file \"" ++ track_file_name ++ "\"\n"
  if error_string ≠ "" then
    Except.error (error_string ++ "Type --help for help.")
  else
    match fs.files track_file_name with
    | some (FileData.csv tracks) => Except.ok tracks
    | _ => Except.ok []

/-- Function `calculate_traj` (source lines 76-88): the per-track worker. Builds the
`[xs, ys]` point lists from the motion states in iteration order, invokes the
fitter, stores the returned curve, and sets the failure flag exactly when the
returned error status is negative. A total function: a fit failure is recorded
in the flag, never raised. -/
def calculate_traj (bez : Fitter) (car : Car) : Traj :=
  let xs := car.motion_states.map (fun st => st.x)
  let ys := car.motion_states.map (fun st => st.y)
  let curr_traj := Traj.ofCar car
  let r := bez (xs, ys)
  let curr_traj := { curr_traj with traj_bez := r.2 }
  if r.1 < 0 then { curr_traj with error := true } else curr_traj

/-- Insertion into a Python dict modelled as an ordered association list:
`d[k] = v` replaces the value in place when the key is present and appends
the pair otherwise. -/
def dictInsert (d : List (Nat × Traj)) (k : Nat) (v : Traj) : List (Nat × Traj) :=
  if d.any (fun p => p.1 = k) then
    d.map (fun p => if p.1 = k then (k, v) else p)
  else
    d ++ [(k, v)]

/-- Python dict lookup `d[k]` (as an `Option`). -/
def dictLookup (d : List (Nat × Traj)) (k : Nat) : Option Traj :=
  (d.find? (fun p => p.1 = k)).map (fun p => p.2)

/-- The aggregation loop of `calc_file_traj` (source lines 117-119): collect
each finished worker's trajectory into the dict keyed by its track id, in
the order the futures were submitted. -/
def buildTrajDict (results : List Traj) : List (Nat × Traj) :=
  results.foldl (fun d t => dictInsert d t.track_id t) []

/-- The whole compute-and-aggregate phase of `calc_file_traj` (source lines
113-119) applied to the values of the track dict: one worker per track, all
results collected. -/
def calcTrajDict (bez : Fitter) (track_dict : List (Nat × Car)) :
    List (Nat × Traj) :=
  buildTrajDict ((track_dict.map (fun p => p.2)).map (calculate_traj bez))

/-- Function `save_traj_file` (source lines 129-136). The source contains
`IOError("Error -- file name not a .pickle file in save_traj_file\n")` guarded
by `if not file_name.endswith('.pickle')`, but the exception object is only
constructed, never raised, so the check has no effect and the pickle is
written unconditionally. We model the write as always succeeding (OS-level
write failures are outside the model). -/
def save_traj_file (fs : FS) (traj_dict : List (Nat × Traj)) (file_name : String) : FS :=
  { fs with
    files := fun p => if p = file_name then some (FileData.pickled traj_dict) else fs.files p }

/-- Function `calc_file_traj` (source lines 91-125): load the tracks, resolve the
output path, skip if the output already exists and `recalculate` is unset,
otherwise compute every trajectory and save the collection. -/
def calc_file_traj (bez : Fitter) (fs : FS) (file_number : Nat)
    (scenario_name : String) (recalculate : Bool) : Except String FS :=
  match get_track_dict fs file_number scenario_name with
  | Except.error e => Except.error e
  | Except.ok track_dict =>
    match get_traj_file_path fs file_number scenario_name with
    | Except.error e => Except.error e
    | Except.ok traj_file =>
      if (fs.files traj_file).isSome && !recalculate then
        Except.ok fs
      else
        Except.ok (save_traj_file fs (calcTrajDict bez track_dict) traj_file)

/-- The all-files loop of `__main__` (source lines 159-166): starting from
`file_number`, while the input track file for the current index exists, run
`calc_file_traj` on it (threading the filesystem, propagating its errors) and
advance to the next index; stop at the first missing input file. Returns the
final filesystem and the list of processed indices. `fuel` bounds the
unbounded Python `while`; every theorem supplies enough of it. -/
def run_all (bez : Fitter) (fuel : Nat) (fs : FS) (scenario_name : String)
    (recalculate : Bool) (file_number : Nat) : Except String (FS × List Nat) :=
  match fuel with
  | 0 => Except.ok (fs, [])
  | fuel' + 1 =>
    if (fs.files (get_track_file_path file_number scenario_name)).isSome then
      match calc_file_traj bez fs file_number scenario_name recalculate with
      | Except.error e => Except.error e
      | Except.ok fs1 =>
        match run_all bez fuel' fs1 scenario_name recalculate (file_number + 1) with
        | Except.error e => Except.error e
        | Except.ok (fs2, l) => Except.ok (fs2, file_number :: l)
    else
      Except.ok (fs, [])

/-- The parsed command-line arguments (source lines 144-150). -/
structure Args where
  scenario_name : Option String
  track_file_number : Option Nat
  all : Bool
  recalculate : Bool

/-- The `__main__` block after parsing (source lines 152-169): the three usage
checks in order, then either the all-files loop or the single-file call.
Validation is pure — it inspects only `args`, never `fs`. -/
def main_run (bez : Fitter) (fuel : Nat) (fs : FS) (args : Args) :
    Except String (FS × List Nat) :=
  if args.scenario_name = none then
    Except.error "You must specify a scenario. Type --help for help."
  else if args.all = false ∧ args.track_file_number = none then
    Except.error "You must specify a track number or --all. Type --help for help"
  else if args.all = true ∧ args.track_file_number ≠ none then
    Except.error "You cannot use -a/--all with a specific track number. Type --help for help"
  else if args.all then
    run_all bez fuel fs (args.scenario_name.getD "") args.recalculate 0
  else
    (calc_file_traj bez fs ((args.track_file_number).getD 0)
        (args.scenario_name.getD "") args.recalculate).map (fun fs1 => (fs1, []))

/-- Observable events of one `calc_file_traj` run, for the temporal claims:
submitting a per-track unit of work to the pool, the `concurrent.futures.wait`
barrier, collecting one finished unit's result, and writing the output file. -/
inductive Event where
  | submit (id : Nat)
  | barrier
  | collect (id : Nat)
  | write (path : String)
deriving DecidableEq

/-- Whether an event is a unit-of-work submission. -/
def Event.isSubmit : Event → Bool
  | Event.submit _ => true
  | _ => false

/-- Whether an event is the synchronization barrier. -/
def Event.isBarrier : Event → Bool
  | Event.barrier => true
  | _ => false

/-- Whether an event is an output-file write. -/
def Event.isWrite : Event → Bool
  | Event.write _ => true
  | _ => false

/-- The event trace of `calc_file_traj` (source lines 91-125), mirroring its
control flow: error paths and the existing-output skip emit no events; the
compute path submits one unit per track (line 114), waits on the barrier
(line 115), collects every result (lines 117-119) and finally writes the
output file once (line 125). -/
def calc_file_traj_events (fs : FS) (file_number : Nat) (scenario_name : String)
    (recalculate : Bool) : List Event :=
  match get_track_dict fs file_number scenario_name with
  | Except.error _ => []
  | Except.ok track_dict =>
    match get_traj_file_path fs file_number scenario_name with
    | Except.error _ => []
    | Except.ok traj_file =>
      if (fs.files traj_file).isSome && !recalculate then
        []
      else
        (track_dict.map (fun p => Event.submit p.2.track_id)) ++ [Event.barrier]
          ++ (track_dict.map (fun p => Event.collect p.2.track_id))
          ++ [Event.write traj_file]

/-! ### String helper lemmas -/

/-- A concatenation whose left part is nonempty is nonempty. -/
theorem append_ne_empty_left (a b : String) (h : a ≠ "") : a ++ b ≠ "" := by
  intro he
  apply h
  apply String.ext
  have hd : (a ++ b).data = ("" : String).data := congrArg String.data he
  rw [String.data_append] at hd
  exact (List.append_eq_nil.mp hd).1

/-- A concatenation whose right part is nonempty is nonempty. -/
theorem append_ne_empty_right (a b : String) (h : b ≠ "") : a ++ b ≠ "" := by
  intro he
  apply h
  apply String.ext
  have hd : (a ++ b).data = ("" : String).data := congrArg String.data he
  rw [String.data_append] at hd
  exact (List.append_eq_nil.mp hd).2

/-- A concatenation of strings is empty only when both parts are. -/
theorem string_append_eq_empty (a b : String) (h : a ++ b = "") : a = "" ∧ b = "" := by
  have hd : (a ++ b).data = ("" : String).data := congrArg String.data h
  rw [String.data_append] at hd
  rcases List.append_eq_nil.mp hd with ⟨ha, hb⟩
  exact ⟨String.ext ha, String.ext hb⟩

/-- A string ending in `".csv"` never equals one ending in `"_trajs.pickle"`:
their final characters differ. -/
theorem csv_ne_pickle (x y : String) : x ++ ".csv" ≠ y ++ "_trajs.pickle" := by
  intro h
  have hd : (x ++ ".csv").data = (y ++ "_trajs.pickle").data := congrArg String.data h
  rw [String.data_append, String.data_append] at hd
  have h1 : (x.data ++ (".csv" : String).data).getLast? = some 'v' := by
    have : x.data ++ (".csv" : String).data = (x.data ++ ['.', 'c', 's']) ++ ['v'] := by
      simp [String.data]
    rw [this]
    exact List.getLast?_concat _
  have h2 : (y.data ++ ("_trajs.pickle" : String).data).getLast? = some 'e' := by
    have : y.data ++ ("_trajs.pickle" : String).data
        = (y.data ++ ['_', 't', 'r', 'a', 'j', 's', '.', 'p', 'i', 'c', 'k', 'l']) ++ ['e'] := by
      simp [String.data]
    rw [this]
    exact List.getLast?_concat _
  rw [hd, h2] at h1
  exact absurd h1 (by decide)

/-- An input track path (ending `.csv`) is never an output trajectory path
(ending `_trajs.pickle`), for any indices and scenario names. -/
theorem track_path_ne_traj_name (n m : Nat) (s s' : String) :
    get_track_file_path n s ≠ get_traj_file_name m s' :=
  csv_ne_pickle _ _

/-! ### Dict (ordered association list) lemmas -/

/-- When the key is not yet present, `dictInsert` appends. -/
theorem dictInsert_of_not_mem (d : List (Nat × Traj)) (k : Nat) (v : Traj)
    (h : k ∉ d.map Prod.fst) : dictInsert d k v = d ++ [(k, v)] := by
  unfold dictInsert
  rw [if_neg]
  intro hany
  rcases List.any_eq_true.mp hany with ⟨p, hp, hpk⟩
  exact h (List.mem_map.mpr ⟨p, hp, of_decide_eq_true hpk⟩)

/-- Folding python-dict insertions over trajectories whose ids (together with
the accumulator's keys) are pairwise distinct just appends the `(id, traj)`
pairs in order. -/
theorem foldl_dictInsert_eq (l : List Traj) :
    ∀ d : List (Nat × Traj), (d.map Prod.fst ++ l.map Traj.track_id).Nodup →
      List.foldl (fun d t => dictInsert d t.track_id t) d l
        = d ++ l.map (fun t => (t.track_id, t)) := by
  induction l with
  | nil => intro d _; simp
  | cons t rest ih =>
    intro d h
    have hnotmem : t.track_id ∉ d.map Prod.fst := by
      rcases List.nodup_append.mp h with ⟨-, -, hdisj⟩
      intro hmem
      exact hdisj hmem (by simp)
    have hins : dictInsert d t.track_id t = d ++ [(t.track_id, t)] :=
      dictInsert_of_not_mem d t.track_id t hnotmem
    have hkeys : (d ++ [(t.track_id, t)]).map Prod.fst = d.map Prod.fst ++ [t.track_id] := by
      simp
    have h' : ((d ++ [(t.track_id, t)]).map Prod.fst ++ rest.map Traj.track_id).Nodup := by
      rw [hkeys, List.append_assoc]
      simpa using h
    calc List.foldl (fun d t => dictInsert d t.track_id t) d (t :: rest)
        = List.foldl (fun d t => dictInsert d t.track_id t) (d ++ [(t.track_id, t)]) rest := by
          rw [List.foldl_cons, hins]
      _ = (d ++ [(t.track_id, t)]) ++ rest.map (fun t => (t.track_id, t)) := ih _ h'
      _ = d ++ (t :: rest).map (fun t => (t.track_id, t)) := by simp

/-- With pairwise-distinct track ids, the aggregated dict is exactly the list
of `(id, traj)` pairs in submission order. -/
theorem buildTrajDict_eq_map (l : List Traj) (h : (l.map Traj.track_id).Nodup) :
    buildTrajDict l = l.map (fun t => (t.track_id, t)) := by
  unfold buildTrajDict
  simpa using foldl_dictInsert_eq l [] (by simpa using h)

/-- With pairwise-distinct track ids, looking up the aggregated dict is
`find?` on the result list. -/
theorem dictLookup_buildTrajDict (l : List Traj) (h : (l.map Traj.track_id).Nodup)
    (k : Nat) :
    dictLookup (buildTrajDict l) k = l.find? (fun t => t.track_id = k) := by
  rw [buildTrajDict_eq_map l h]
  unfold dictLookup
  rw [List.find?_map]
  rw [Option.map_map]
  have hp : ((fun p : Nat × Traj => decide (p.1 = k)) ∘ fun t : Traj => (t.track_id, t))
      = fun t : Traj => decide (t.track_id = k) := rfl
  rw [hp]
  have hsnd : ((fun p : Nat × Traj => p.2) ∘ fun t : Traj => (t.track_id, t)) = id := rfl
  rw [hsnd, Option.map_id, id]

/-- Lookup by `find?` on a key is invariant under permutation when the keys are pairwise
distinct. -/
theorem find?_key_perm (l₁ l₂ : List Traj) (hperm : l₁.Perm l₂)
    (hnd : (l₂.map Traj.track_id).Nodup) (k : Nat) :
    l₁.find? (fun t => t.track_id = k) = l₂.find? (fun t => t.track_id = k) := by
  cases h1 : l₁.find? (fun t => t.track_id = k) with
  | none =>
    have := List.find?_eq_none.mp h1
    exact (List.find?_eq_none.mpr fun x hx => this x (hperm.mem_iff.mpr hx)).symm
  | some t =>
    have htmem : t ∈ l₂ := hperm.mem_iff.mp (List.mem_of_find?_eq_some h1)
    have htp : t.track_id = k := by
      have := List.find?_some h1
      simpa using this
    have hsome : (l₂.find? (fun t => t.track_id = k)).isSome := by
      rw [List.find?_isSome]
      exact ⟨t, htmem, by simpa using htp⟩
    cases h2 : l₂.find? (fun t => t.track_id = k) with
    | none => rw [h2] at hsome; simp at hsome
    | some t' =>
      have ht'mem : t' ∈ l₂ := List.mem_of_find?_eq_some h2
      have ht'p : t'.track_id = k := by
        have := List.find?_some h2
        simpa using this
      have : t = t' := List.inj_on_of_nodup_map hnd htmem ht'mem (htp.trans ht'p.symm)
      rw [this]

/-! ### Path-resolution and `calc_file_traj` helper lemmas -/

/-- When both expected directories exist, `get_traj_file_path` returns the
trajectory-file name. -/
theorem get_traj_file_path_ok_of_dirs (fs : FS) (n : Nat) (s : String)
    (hd1 : fs.isdir "../trajectory_files" = true)
    (hd2 : fs.isdir ("../trajectory_files" ++ "/" ++ s) = true) :
    get_traj_file_path fs n s = Except.ok (get_traj_file_name n s) := by
  unfold get_traj_file_path
  simp only [hd1, hd2, if_true]
  rw [if_neg]
  simp

/-- The missing-trajectory-directory message is nonempty. -/
theorem traj_dir_msg_ne_empty :
    ("Did not find traj file directory \"" ++ "../trajectory_files" ++ "\"\n" : String) ≠ "" :=
  append_ne_empty_left _ _ (append_ne_empty_left _ _ (by decide))

/-- The missing-scenario-directory message is nonempty. -/
theorem scenario_dir_msg_ne_empty (s : String) :
    ("Did not find scenario directory \"" ++ ("../trajectory_files" ++ "/" ++ s) ++ "\"\n"
      : String) ≠ "" :=
  append_ne_empty_left _ _ (append_ne_empty_left _ _ (by decide))

/-- When the trajectories root is missing, `get_traj_file_path` raises. -/
theorem get_traj_file_path_error_left (fs : FS) (n : Nat) (s : String)
    (hd1 : fs.isdir "../trajectory_files" = false) :
    ∃ e, get_traj_file_path fs n s = Except.error e := by
  simp only [get_traj_file_path, hd1, Bool.false_eq_true, if_false]
  rw [if_pos (append_ne_empty_left _ _ traj_dir_msg_ne_empty)]
  exact ⟨_, rfl⟩

/-- When the scenario subdirectory is missing, `get_traj_file_path` raises. -/
theorem get_traj_file_path_error_right (fs : FS) (n : Nat) (s : String)
    (hd2 : fs.isdir ("../trajectory_files" ++ "/" ++ s) = false) :
    ∃ e, get_traj_file_path fs n s = Except.error e := by
  simp only [get_traj_file_path, hd2, Bool.false_eq_true, if_false]
  rw [if_pos (append_ne_empty_right _ _ (scenario_dir_msg_ne_empty s))]
  exact ⟨_, rfl⟩

/-- When both directories are missing, the single raised error enumerates
both problems, in source order, followed by the help line. -/
theorem get_traj_file_path_error_both (fs : FS) (n : Nat) (s : String)
    (hd1 : fs.isdir "../trajectory_files" = false)
    (hd2 : fs.isdir ("../trajectory_files" ++ "/" ++ s) = false) :
    get_traj_file_path fs n s = Except.error
      ((("Did not find traj file directory \"" ++ "../trajectory_files" ++ "\"\n")
        ++ ("Did not find scenario directory \""
            ++ ("../trajectory_files" ++ "/" ++ s) ++ "\"\n"))
        ++ "Type --help for help.") := by
  simp only [get_traj_file_path, hd1, hd2, Bool.false_eq_true, if_false]
  rw [if_pos (append_ne_empty_left _ _ traj_dir_msg_ne_empty)]

/-- Inversion: a successful `get_traj_file_path` means both directories exist
and the returned path is the trajectory-file name. -/
theorem get_traj_file_path_ok_inv (fs : FS) (n : Nat) (s : String) (tf : String)
    (h : get_traj_file_path fs n s = Except.ok tf) :
    fs.isdir "../trajectory_files" = true
      ∧ fs.isdir ("../trajectory_files" ++ "/" ++ s) = true
      ∧ tf = get_traj_file_name n s := by
  have hd1 : fs.isdir "../trajectory_files" = true := by
    cases hb : fs.isdir "../trajectory_files" with
    | true => rfl
    | false =>
      rcases get_traj_file_path_error_left fs n s hb with ⟨e, he⟩
      rw [he] at h
      exact absurd h (by simp)
  have hd2 : fs.isdir ("../trajectory_files" ++ "/" ++ s) = true := by
    cases hb : fs.isdir ("../trajectory_files" ++ "/" ++ s) with
    | true => rfl
    | false =>
      rcases get_traj_file_path_error_right fs n s hb with ⟨e, he⟩
      rw [he] at h
      exact absurd h (by simp)
  rw [get_traj_file_path_ok_of_dirs fs n s hd1 hd2] at h
  exact ⟨hd1, hd2, (Except.ok.injEq _ _ |>.mp h).symm⟩

/-- When the input track file exists, `get_track_dict` succeeds. -/
theorem get_track_dict_ok_of_isfile (fs : FS) (n : Nat) (s : String)
    (hin : (fs.files (get_track_file_path n s)).isSome = true) :
    ∃ td, get_track_dict fs n s = Except.ok td := by
  unfold get_track_dict
  simp only [hin, if_true]
  rw [if_neg (by simp)]
  cases hc : fs.files (get_track_file_path n s) with
  | none => rw [hc] at hin; simp at hin
  | some fd =>
    cases fd with
    | csv tracks => exact ⟨tracks, rfl⟩
    | pickled trajs => exact ⟨[], rfl⟩

/-- Inversion: a successful `get_track_dict` means the input track file
exists. -/
theorem get_track_dict_ok_inv (fs : FS) (n : Nat) (s : String)
    (td : List (Nat × Car)) (h : get_track_dict fs n s = Except.ok td) :
    (fs.files (get_track_file_path n s)).isSome = true := by
  unfold get_track_dict at h
  by_cases hin : (fs.files (get_track_file_path n s)).isSome = true
  · exact hin
  · simp only [hin, Bool.false_eq_true, if_false] at h
    rw [if_pos (append_ne_empty_left _ _ (append_ne_empty_left _ _ (by decide)))] at h
    exact absurd h (by simp)

/-- A successful `calc_file_traj` either took the existing-output skip path
(filesystem returned unchanged) or computed and saved the aggregated
trajectory dict at the output path. -/
theorem calc_file_traj_ok_cases (bez : Fitter) (fs : FS) (n : Nat) (s : String)
    (r : Bool) (fs₁ : FS) (h : calc_file_traj bez fs n s r = Except.ok fs₁) :
    (fs₁ = fs ∧ (fs.files (get_traj_file_name n s)).isSome = true) ∨
    (∃ td, get_track_dict fs n s = Except.ok td ∧
      fs₁ = save_traj_file fs (calcTrajDict bez td) (get_traj_file_name n s)) := by
  unfold calc_file_traj at h
  cases hgd : get_track_dict fs n s with
  | error e => rw [hgd] at h; exact absurd h (by simp)
  | ok td =>
    rw [hgd] at h
    cases hgp : get_traj_file_path fs n s with
    | error e => rw [hgp] at h; exact absurd h (by simp)
    | ok tf =>
      rw [hgp] at h
      rcases get_traj_file_path_ok_inv fs n s tf hgp with ⟨-, -, htf⟩
      subst htf
      dsimp only at h
      by_cases hskip : ((fs.files (get_traj_file_name n s)).isSome && !r) = true
      · rw [if_pos hskip] at h
        left
        refine ⟨((Except.ok.injEq _ _).mp h).symm, ?_⟩
        exact (Bool.and_eq_true _ _ |>.mp hskip).1
      · rw [if_neg hskip] at h
        right
        exact ⟨td, rfl, ((Except.ok.injEq _ _).mp h).symm⟩

/-- A successful `calc_file_traj` never touches directories and changes no
file other than its own output trajectory file. -/
theorem calc_file_traj_ok_effects (bez : Fitter) (fs : FS) (n : Nat) (s : String)
    (r : Bool) (fs₁ : FS) (h : calc_file_traj bez fs n s r = Except.ok fs₁) :
    fs₁.isdir = fs.isdir
      ∧ ∀ q, q ≠ get_traj_file_name n s → fs₁.files q = fs.files q := by
  rcases calc_file_traj_ok_cases bez fs n s r fs₁ h with ⟨hfs, -⟩ | ⟨td, -, hfs⟩
  · rw [hfs]; exact ⟨rfl, fun q _ => rfl⟩
  · rw [hfs]
    unfold save_traj_file
    refine ⟨rfl, fun q hq => ?_⟩
    simp only []
    rw [if_neg hq]

/-- Inversion: a successful `calc_file_traj` means the input track file and
both output directories were present. -/
theorem calc_file_traj_ok_inv (bez : Fitter) (fs : FS) (n : Nat) (s : String)
    (r : Bool) (fs₁ : FS) (h : calc_file_traj bez fs n s r = Except.ok fs₁) :
    (fs.files (get_track_file_path n s)).isSome = true
      ∧ fs.isdir "../trajectory_files" = true
      ∧ fs.isdir ("../trajectory_files" ++ "/" ++ s) = true := by
  unfold calc_file_traj at h
  cases hgd : get_track_dict fs n s with
  | error e => rw [hgd] at h; exact absurd h (by simp)
  | ok td =>
    rw [hgd] at h
    have hin := get_track_dict_ok_inv fs n s td hgd
    cases hgp : get_traj_file_path fs n s with
    | error e => rw [hgp] at h; exact absurd h (by simp)
    | ok tf =>
      rcases get_traj_file_path_ok_inv fs n s tf hgp with ⟨hd1, hd2, -⟩
      exact ⟨hin, hd1, hd2⟩

/-- When the input file and both output directories are present,
`calc_file_traj` succeeds. -/
theorem calc_file_traj_ok_total (bez : Fitter) (fs : FS) (n : Nat) (s : String)
    (r : Bool) (hin : (fs.files (get_track_file_path n s)).isSome = true)
    (hd1 : fs.isdir "../trajectory_files" = true)
    (hd2 : fs.isdir ("../trajectory_files" ++ "/" ++ s) = true) :
    ∃ fs₁, calc_file_traj bez fs n s r = Except.ok fs₁ := by
  rcases get_track_dict_ok_of_isfile fs n s hin with ⟨td, hgd⟩
  unfold calc_file_traj
  rw [hgd, get_traj_file_path_ok_of_dirs fs n s hd1 hd2]
  dsimp only
  by_cases hskip : ((fs.files (get_traj_file_name n s)).isSome && !r) = true
  · rw [if_pos hskip]; exact ⟨fs, rfl⟩
  · rw [if_neg hskip]; exact ⟨_, rfl⟩

/-- When additionally the output file already exists and `recalculate` is
unset, `calc_file_traj` takes the skip path and leaves the filesystem
untouched. -/
theorem calc_file_traj_skip (bez : Fitter) (fs : FS) (n : Nat) (s : String)
    (hin : (fs.files (get_track_file_path n s)).isSome = true)
    (hd1 : fs.isdir "../trajectory_files" = true)
    (hd2 : fs.isdir ("../trajectory_files" ++ "/" ++ s) = true)
    (hout : (fs.files (get_traj_file_name n s)).isSome = true) :
    calc_file_traj bez fs n s false = Except.ok fs := by
  rcases get_track_dict_ok_of_isfile fs n s hin with ⟨td, hgd⟩
  unfold calc_file_traj
  rw [hgd, get_traj_file_path_ok_of_dirs fs n s hd1 hd2]
  dsimp only
  rw [if_pos (by rw [hout]; rfl)]

/-- The all-files loop, started at any index with enough fuel, over a
filesystem whose output directories exist and whose input files exist for
exactly the next `c` indices, succeeds and processes exactly those `c`
indices. -/
theorem run_all_aux (bez : Fitter) (s : String) (r : Bool) :
    ∀ (c : Nat) (fs : FS) (j fuel : Nat), c < fuel →
      fs.isdir "../trajectory_files" = true →
      fs.isdir ("../trajectory_files" ++ "/" ++ s) = true →
      (∀ i, j ≤ i → i < j + c → (fs.files (get_track_file_path i s)).isSome = true) →
      fs.files (get_track_file_path (j + c) s) = none →
      ∃ fs2, run_all bez fuel fs s r j = Except.ok (fs2, List.range' j c) := by
  intro c
  induction c with
  | zero =>
    intro fs j fuel hfuel hd1 hd2 hpres habs
    cases fuel with
    | zero => exact absurd hfuel (by simp)
    | succ f =>
      refine ⟨fs, ?_⟩
      unfold run_all
      rw [if_neg (by simp only [Nat.add_zero] at habs; simp [habs])]
      rfl
  | succ c ih =>
    intro fs j fuel hfuel hd1 hd2 hpres habs
    cases fuel with
    | zero => exact absurd hfuel (by omega)
    | succ f =>
      have hfj : (fs.files (get_track_file_path j s)).isSome = true :=
        hpres j le_rfl (by omega)
      obtain ⟨fs1, hcalc⟩ := calc_file_traj_ok_total bez fs j s r hfj hd1 hd2
      obtain ⟨hisdir, hfiles⟩ := calc_file_traj_ok_effects bez fs j s r fs1 hcalc
      have hd1' : fs1.isdir "../trajectory_files" = true := by rw [hisdir]; exact hd1
      have hd2' : fs1.isdir ("../trajectory_files" ++ "/" ++ s) = true := by
        rw [hisdir]; exact hd2
      have hpres' : ∀ i, j + 1 ≤ i → i < (j + 1) + c →
          (fs1.files (get_track_file_path i s)).isSome = true := by
        intro i h1 h2
        rw [hfiles _ (track_path_ne_traj_name i j s s)]
        exact hpres i (by omega) (by omega)
      have habs' : fs1.files (get_track_file_path ((j + 1) + c) s) = none := by
        rw [hfiles _ (track_path_ne_traj_name _ j s s)]
        have hidx : (j + 1) + c = j + (c + 1) := by omega
        rw [hidx]
        exact habs
      obtain ⟨fs2, hrec⟩ := ih fs1 (j + 1) f (by omega) hd1' hd2' hpres' habs'
      refine ⟨fs2, ?_⟩
      unfold run_all
      rw [if_pos hfj, hcalc]
      dsimp only
      rw [hrec]
      dsimp only
      rw [List.range'_succ]

/-- The per-track worker preserves the track identifier. -/
theorem calculate_traj_track_id (bez : Fitter) (car : Car) :
    (calculate_traj bez car).track_id = car.track_id := by
  simp only [calculate_traj, Traj.ofCar]
  split <;> rfl

/-! ### Claim theorems -/

/-- C6: for every fitter outcome and every track, `calculate_traj` returns a
trajectory carrying the same track identifier as the input track, with the
failure flag set exactly when the fitter's error status is negative; it is a
total function, so a fit failure is recorded in the flag and never raised,
and the batch continues. -/
theorem claim_C6_failure_flag (bez : Fitter) (car : Car) :
    (calculate_traj bez car).track_id = car.track_id ∧
    ((calculate_traj bez car).error = true ↔
      (bez (car.motion_states.map (fun st => st.x),
        car.motion_states.map (fun st => st.y))).1 < 0) := by
  simp only [calculate_traj, Traj.ofCar]
  split
  · rename_i h
    exact ⟨rfl, by simpa using h⟩
  · rename_i h
    exact ⟨rfl, by simpa using h⟩

/-- C2: for every fitter and every well-formed input track dict (each track
stored under its own id, keys distinct as in a Python dict), the batch
aggregation produces exactly one entry per input track: its key list equals
the input key list (so no drops and no duplicates), and every entry is keyed
by its trajectory's track identifier — independently of whether any fit was
flagged as failed. -/
theorem claim_C2_one_entry_per_track (bez : Fitter) (td : List (Nat × Car))
    (hid : ∀ p ∈ td, (p.2).track_id = p.1)
    (hnd : (td.map Prod.fst).Nodup) :
    (calcTrajDict bez td).map Prod.fst = td.map Prod.fst ∧
    ∀ q ∈ calcTrajDict bez td, (q.2).track_id = q.1 := by
  have hids : ((td.map (fun p => p.2)).map (calculate_traj bez)).map Traj.track_id
      = td.map Prod.fst := by
    rw [List.map_map, List.map_map]
    apply List.map_congr_left
    intro p hp
    show (calculate_traj bez p.2).track_id = p.1
    rw [calculate_traj_track_id]
    exact hid p hp
  have hnd' : (((td.map (fun p => p.2)).map (calculate_traj bez)).map Traj.track_id).Nodup := by
    rw [hids]; exact hnd
  unfold calcTrajDict
  rw [buildTrajDict_eq_map _ hnd']
  constructor
  · rw [List.map_map]
    have hfst : (Prod.fst ∘ fun t : Traj => (t.track_id, t)) = Traj.track_id := rfl
    rw [hfst]
    exact hids
  · intro q hq
    rcases List.mem_map.mp hq with ⟨t, -, rfl⟩
    rfl

/-- Witness for C2: a concrete two-track collection. -/
theorem claim_C2_witness :
    (calcTrajDict (fun _ => (0, ([] : BezCurve)))
        [(1, Car.mk 1 []), (2, Car.mk 2 [MotionState.mk 0 0])]).map Prod.fst
      = [(1, Car.mk 1 []), (2, Car.mk 2 [MotionState.mk 0 0])].map Prod.fst :=
  (claim_C2_one_entry_per_track (fun _ => (0, ([] : BezCurve)))
    [(1, Car.mk 1 []), (2, Car.mk 2 [MotionState.mk 0 0])]
    (by decide) (by decide)).1

/-- C9: the final trajectory collection does not depend on the order in which
per-track results are folded in: any two completion orders (permutations of
the same result list, with the distinct track ids a Python input dict
guarantees) aggregate to dicts with identical lookups. -/
theorem claim_C9_completion_order (l₁ l₂ : List Traj) (hperm : l₁.Perm l₂)
    (hnd : (l₁.map Traj.track_id).Nodup) :
    ∀ k, dictLookup (buildTrajDict l₁) k = dictLookup (buildTrajDict l₂) k := by
  have hnd₂ : (l₂.map Traj.track_id).Nodup := ((hperm.map Traj.track_id).nodup_iff).mp hnd
  intro k
  rw [dictLookup_buildTrajDict l₁ hnd k, dictLookup_buildTrajDict l₂ hnd₂ k]
  exact find?_key_perm l₁ l₂ hperm hnd₂ k

/-- Witness for C9: two results folded in either order give the same dict. -/
theorem claim_C9_witness :
    dictLookup (buildTrajDict [Traj.mk 1 [] false, Traj.mk 2 [] true]) 2
      = dictLookup (buildTrajDict [Traj.mk 2 [] true, Traj.mk 1 [] false]) 2 :=
  claim_C9_completion_order [Traj.mk 1 [] false, Traj.mk 2 [] true]
    [Traj.mk 2 [] true, Traj.mk 1 [] false]
    (List.Perm.swap (Traj.mk 2 [] true) (Traj.mk 1 [] false) [])
    (by decide) 2

/-- C1 (code evidence): the `.pickle`-suffix guard in `save_traj_file` has no
effect, because the source builds the `IOError` without raising it; saving a
collection to a name that does not end in `.pickle` still writes the file and
reports no error. -/
theorem claim_C1_save_writes_despite_bad_suffix :
    ¬ (".pickle".data <:+ "foo.txt".data) ∧
    (save_traj_file ⟨fun _ => true, fun _ => none⟩ [] "foo.txt").files "foo.txt"
      = some (FileData.pickled []) := by
  constructor
  · decide
  · simp [save_traj_file]

/-- C10: `calc_file_traj` resolves and loads the input track file before the
existing-output skip check, so a missing input raises the track-file
`IOError` even when the output trajectory file already exists and
`recalculate` is unset. -/
theorem claim_C10_input_checked_before_skip (bez : Fitter) (fs : FS) (n : Nat)
    (s : String) (r : Bool) (h : fs.files (get_track_file_path n s) = none) :
    calc_file_traj bez fs n s r = Except.error
      ("Did not find track file \"" ++ get_track_file_path n s ++ "\"\n"
        ++ "Type --help for help.") := by
  have hgd : get_track_dict fs n s = Except.error
      ("Did not find track file \"" ++ get_track_file_path n s ++ "\"\n"
        ++ "Type --help for help.") := by
    simp only [get_track_dict, h, Option.isSome_none, Bool.false_eq_true, if_false]
    rw [if_pos (append_ne_empty_left _ _ (append_ne_empty_left _ _ (by decide)))]
  unfold calc_file_traj
  rw [hgd]

/-- Witness for C10: input missing while the output file exists and
`recalculate` is off. -/
theorem claim_C10_witness :
    calc_file_traj (fun _ => (0, ([] : BezCurve)))
      ⟨fun _ => true,
        fun p => if p = get_traj_file_name 0 "Scenario1"
          then some (FileData.pickled []) else none⟩
      0 "Scenario1" false
      = Except.error ("Did not find track file \"" ++ get_track_file_path 0 "Scenario1"
          ++ "\"\n" ++ "Type --help for help.") :=
  claim_C10_input_checked_before_skip (fun _ => (0, ([] : BezCurve)))
    ⟨fun _ => true,
      fun p => if p = get_traj_file_name 0 "Scenario1"
        then some (FileData.pickled []) else none⟩
    0 "Scenario1" false (by decide)

/-- C5: the three usage checks (missing scenario; neither an index nor the
all flag; both an index and the all flag) reject the invocation with an error
before any filesystem access: the validation result is an error that is
identical for every filesystem state. -/
theorem claim_C5_usage_validation (bez : Fitter) (fuel : Nat) (fs fs' : FS)
    (args : Args)
    (h : args.scenario_name = none
      ∨ (args.all = false ∧ args.track_file_number = none)
      ∨ (args.all = true ∧ args.track_file_number ≠ none)) :
    (∃ e, main_run bez fuel fs args = Except.error e)
      ∧ main_run bez fuel fs args = main_run bez fuel fs' args := by
  rcases h with hs | ⟨ha, hn⟩ | ⟨ha, hn⟩
  · have hrun : ∀ g : FS, main_run bez fuel g args
        = Except.error "You must specify a scenario. Type --help for help." := by
      intro g
      unfold main_run
      rw [if_pos hs]
    exact ⟨⟨_, hrun fs⟩, (hrun fs).trans (hrun fs').symm⟩
  · by_cases hs : args.scenario_name = none
    · have hrun : ∀ g : FS, main_run bez fuel g args
          = Except.error "You must specify a scenario. Type --help for help." := by
        intro g
        unfold main_run
        rw [if_pos hs]
      exact ⟨⟨_, hrun fs⟩, (hrun fs).trans (hrun fs').symm⟩
    · have hrun : ∀ g : FS, main_run bez fuel g args
          = Except.error "You must specify a track number or --all. Type --help for help" := by
        intro g
        unfold main_run
        rw [if_neg hs, if_pos ⟨ha, hn⟩]
      exact ⟨⟨_, hrun fs⟩, (hrun fs).trans (hrun fs').symm⟩
  · by_cases hs : args.scenario_name = none
    · have hrun : ∀ g : FS, main_run bez fuel g args
          = Except.error "You must specify a scenario. Type --help for help." := by
        intro g
        unfold main_run
        rw [if_pos hs]
      exact ⟨⟨_, hrun fs⟩, (hrun fs).trans (hrun fs').symm⟩
    · have hc2 : ¬(args.all = false ∧ args.track_file_number = none) := by
        intro hx
        rw [ha] at hx
        exact Bool.noConfusion hx.1
      have hrun : ∀ g : FS, main_run bez fuel g args
          = Except.error
            "You cannot use -a/--all with a specific track number. Type --help for help" := by
        intro g
        unfold main_run
        rw [if_neg hs, if_neg hc2, if_pos ⟨ha, hn⟩]
      exact ⟨⟨_, hrun fs⟩, (hrun fs).trans (hrun fs').symm⟩

/-- Witness for C5: `run(None, None, all=False)` fails identically on two
different filesystems. -/
theorem claim_C5_witness :
    (∃ e, main_run (fun _ => (0, ([] : BezCurve))) 0 ⟨fun _ => true, fun _ => none⟩
        ⟨none, none, false, false⟩ = Except.error e)
      ∧ main_run (fun _ => (0, ([] : BezCurve))) 0 ⟨fun _ => true, fun _ => none⟩
          ⟨none, none, false, false⟩
        = main_run (fun _ => (0, ([] : BezCurve))) 0 ⟨fun _ => false, fun _ => none⟩
          ⟨none, none, false, false⟩ :=
  claim_C5_usage_validation (fun _ => (0, ([] : BezCurve))) 0
    ⟨fun _ => true, fun _ => none⟩ ⟨fun _ => false, fun _ => none⟩
    ⟨none, none, false, false⟩ (Or.inl rfl)

/-- C7: output-path resolution succeeds and returns the path when both
expected directories exist; it raises exactly one error (the single error
value of the `Except`) precisely when a directory is missing; and when both
directories are missing, the single raised message enumerates both problems
rather than only the first. -/
theorem claim_C7_error_aggregation (fs : FS) (n : Nat) (s : String) :
    (fs.isdir "../trajectory_files" = true →
      fs.isdir ("../trajectory_files" ++ "/" ++ s) = true →
      get_traj_file_path fs n s = Except.ok (get_traj_file_name n s)) ∧
    ((∃ e, get_traj_file_path fs n s = Except.error e) ↔
      (fs.isdir "../trajectory_files" = false
        ∨ fs.isdir ("../trajectory_files" ++ "/" ++ s) = false)) ∧
    (fs.isdir "../trajectory_files" = false →
      fs.isdir ("../trajectory_files" ++ "/" ++ s) = false →
      get_traj_file_path fs n s = Except.error
        ((("Did not find traj file directory \"" ++ "../trajectory_files" ++ "\"\n")
          ++ ("Did not find scenario directory \""
              ++ ("../trajectory_files" ++ "/" ++ s) ++ "\"\n"))
          ++ "Type --help for help.")) := by
  refine ⟨get_traj_file_path_ok_of_dirs fs n s, ⟨?_, ?_⟩,
    get_traj_file_path_error_both fs n s⟩
  · rintro ⟨e, he⟩
    cases hb1 : fs.isdir "../trajectory_files" with
    | false => exact Or.inl rfl
    | true =>
      cases hb2 : fs.isdir ("../trajectory_files" ++ "/" ++ s) with
      | false => exact Or.inr rfl
      | true =>
        rw [get_traj_file_path_ok_of_dirs fs n s hb1 hb2] at he
        exact absurd he (by simp)
  · rintro (h | h)
    · exact get_traj_file_path_error_left fs n s h
    · exact get_traj_file_path_error_right fs n s h

/-- Witness for C7: both directories missing produces the single aggregated
message. -/
theorem claim_C7_witness :
    get_traj_file_path ⟨fun _ => false, fun _ => none⟩ 0 "Scenario1"
      = Except.error
        ((("Did not find traj file directory \"" ++ "../trajectory_files" ++ "\"\n")
          ++ ("Did not find scenario directory \""
              ++ ("../trajectory_files" ++ "/" ++ "Scenario1") ++ "\"\n"))
          ++ "Type --help for help.") :=
  (claim_C7_error_aggregation ⟨fun _ => false, fun _ => none⟩ 0 "Scenario1").2.2 rfl rfl

/-- C3: with the input track file present and the output directories in
place, if the output trajectory file already exists and `recalculate` is
unset then `calc_file_traj` performs no recomputation and returns the
filesystem unchanged; consequently, re-running after any successful run with
the same tracks and no forced recompute leaves the filesystem — in
particular the output file — unchanged. -/
theorem claim_C3_skip_and_idempotence (bez : Fitter) (fs fs₁ : FS) (n : Nat)
    (s : String) (r : Bool) :
    ((fs.files (get_track_file_path n s)).isSome = true →
      fs.isdir "../trajectory_files" = true →
      fs.isdir ("../trajectory_files" ++ "/" ++ s) = true →
      (fs.files (get_traj_file_name n s)).isSome = true →
      calc_file_traj bez fs n s false = Except.ok fs) ∧
    (calc_file_traj bez fs n s r = Except.ok fs₁ →
      calc_file_traj bez fs₁ n s false = Except.ok fs₁) := by
  constructor
  · exact calc_file_traj_skip bez fs n s
  · intro h
    rcases calc_file_traj_ok_inv bez fs n s r fs₁ h with ⟨hin, hd1, hd2⟩
    rcases calc_file_traj_ok_effects bez fs n s r fs₁ h with ⟨hisdir, hfiles⟩
    have hd1' : fs₁.isdir "../trajectory_files" = true := by rw [hisdir]; exact hd1
    have hd2' : fs₁.isdir ("../trajectory_files" ++ "/" ++ s) = true := by
      rw [hisdir]; exact hd2
    have hin' : (fs₁.files (get_track_file_path n s)).isSome = true := by
      rw [hfiles _ (track_path_ne_traj_name n n s s)]
      exact hin
    have hout' : (fs₁.files (get_traj_file_name n s)).isSome = true := by
      rcases calc_file_traj_ok_cases bez fs n s r fs₁ h with ⟨hfs, hout⟩ | ⟨td, -, hfs⟩
      · rw [hfs]; exact hout
      · rw [hfs]
        unfold save_traj_file
        simp
    exact calc_file_traj_skip bez fs₁ n s hin' hd1' hd2' hout'

/-- Witness for C3: a concrete filesystem with input, directories and output
all present is returned unchanged by a no-recalculate run. -/
theorem claim_C3_witness :
    calc_file_traj (fun _ => (0, ([] : BezCurve)))
      ⟨fun _ => true,
        fun p => if p = get_track_file_path 0 "Scenario1" then some (FileData.csv [])
          else if p = get_traj_file_name 0 "Scenario1" then some (FileData.pickled [])
          else none⟩
      0 "Scenario1" false
      = Except.ok
        ⟨fun _ => true,
          fun p => if p = get_track_file_path 0 "Scenario1" then some (FileData.csv [])
            else if p = get_traj_file_name 0 "Scenario1" then some (FileData.pickled [])
            else none⟩ :=
  (claim_C3_skip_and_idempotence (fun _ => (0, ([] : BezCurve)))
    ⟨fun _ => true,
      fun p => if p = get_track_file_path 0 "Scenario1" then some (FileData.csv [])
        else if p = get_traj_file_name 0 "Scenario1" then some (FileData.pickled [])
        else none⟩
    ⟨fun _ => true,
      fun p => if p = get_track_file_path 0 "Scenario1" then some (FileData.csv [])
        else if p = get_traj_file_name 0 "Scenario1" then some (FileData.pickled [])
        else none⟩
    0 "Scenario1" false).1 (by decide) rfl rfl (by decide)

/-- C4: in all-files mode, iteration starts at file index 0 and processes
exactly the indices of the initial contiguous run of existing input track
files, stopping at the first missing input without processing it or any
later index. -/
theorem claim_C4_all_files_contiguous (bez : Fitter) (fs : FS) (s : String)
    (r : Bool) (k fuel : Nat) (hfuel : k < fuel)
    (hd1 : fs.isdir "../trajectory_files" = true)
    (hd2 : fs.isdir ("../trajectory_files" ++ "/" ++ s) = true)
    (hpres : ∀ i, i < k → (fs.files (get_track_file_path i s)).isSome = true)
    (hmiss : fs.files (get_track_file_path k s) = none) :
    ∃ fs2, run_all bez fuel fs s r 0 = Except.ok (fs2, List.range k) := by
  rw [List.range_eq_range']
  exact run_all_aux bez s r k fs 0 fuel hfuel hd1 hd2
    (fun i h1 h2 => hpres i (by omega)) (by simpa using hmiss)

/-- Witness for C4: inputs 0 and 1 exist, 2 does not; exactly indices 0 and 1
are processed. -/
theorem claim_C4_witness :
    ∃ fs2, run_all (fun _ => (0, ([] : BezCurve))) 3
      ⟨fun _ => true,
        fun p => if p = get_track_file_path 0 "S" then some (FileData.csv [])
          else if p = get_track_file_path 1 "S" then some (FileData.csv [])
          else none⟩
      "S" false 0 = Except.ok (fs2, List.range 2) :=
  claim_C4_all_files_contiguous (fun _ => (0, ([] : BezCurve)))
    ⟨fun _ => true,
      fun p => if p = get_track_file_path 0 "S" then some (FileData.csv [])
        else if p = get_track_file_path 1 "S" then some (FileData.csv [])
        else none⟩
    "S" false 2 3 (by decide) rfl rfl (by decide) (by decide)

/-- Shape lemma for traces that end in a single write: the write is counted
at most once, and any prefix that already contains a write contains the whole
of the preceding events — in particular every submission and the barrier. -/
theorem write_last_spec (A : List Event) (tf : String)
    (hA : A.countP Event.isWrite = 0) (hbar : 1 ≤ A.countP Event.isBarrier) :
    (A ++ [Event.write tf]).countP Event.isWrite ≤ 1 ∧
    ∀ m : Nat, 1 ≤ ((A ++ [Event.write tf]).take m).countP Event.isWrite →
      ((A ++ [Event.write tf]).take m).countP Event.isSubmit
          = (A ++ [Event.write tf]).countP Event.isSubmit ∧
        1 ≤ ((A ++ [Event.write tf]).take m).countP Event.isBarrier := by
  constructor
  · rw [List.countP_append, hA]
    simp [Event.isWrite]
  · intro m hm
    by_cases hmlen : m ≤ A.length
    · exfalso
      have htake : (A ++ [Event.write tf]).take m = A.take m := by
        rw [List.take_append_eq_append_take]
        have hz : m - A.length = 0 := by omega
        rw [hz]
        simp
      rw [htake] at hm
      have hle : (A.take m).countP Event.isWrite ≤ A.countP Event.isWrite :=
        (List.take_sublist m A).countP_le Event.isWrite
      omega
    · have hlen : (A ++ [Event.write tf]).length ≤ m := by
        rw [List.length_append]
        simp only [List.length_singleton]
        omega
      rw [List.take_of_length_le hlen]
      refine ⟨rfl, ?_⟩
      rw [List.countP_append]
      omega

/-- C8: in every run the output file is written at most once, and only after
the synchronization barrier and after every submitted per-track unit of work:
a trace prefix that contains the write contains the barrier and all
submissions (and all collections), so no partial trajectory collection is
ever persisted. -/
theorem claim_C8_write_once_after_barrier (fs : FS) (n : Nat) (s : String)
    (r : Bool) :
    (calc_file_traj_events fs n s r).countP Event.isWrite ≤ 1 ∧
    ∀ m : Nat, 1 ≤ ((calc_file_traj_events fs n s r).take m).countP Event.isWrite →
      ((calc_file_traj_events fs n s r).take m).countP Event.isSubmit
          = (calc_file_traj_events fs n s r).countP Event.isSubmit ∧
        1 ≤ ((calc_file_traj_events fs n s r).take m).countP Event.isBarrier := by
  unfold calc_file_traj_events
  cases hgd : get_track_dict fs n s with
  | error e =>
    refine ⟨by simp, fun m hm => ?_⟩
    simp at hm
  | ok td =>
    cases hgp : get_traj_file_path fs n s with
    | error e =>
      refine ⟨by simp, fun m hm => ?_⟩
      simp at hm
    | ok tf =>
      dsimp only
      by_cases hskip : ((fs.files tf).isSome && !r) = true
      · rw [if_pos hskip]
        refine ⟨by simp, fun m hm => ?_⟩
        simp at hm
      · rw [if_neg hskip]
        apply write_last_spec
        · rw [List.countP_append, List.countP_append, List.countP_map, List.countP_map]
          simp [Event.isWrite, Function.comp]
        · rw [List.countP_append, List.countP_append]
          have hb : ([Event.barrier].countP Event.isBarrier) = 1 := by
            simp [Event.isBarrier]
          omega

/-- Witness for C8: a concrete computing run; the prefix reaching the write
contains every submission and the barrier. -/
theorem claim_C8_witness :
    ((calc_file_traj_events
        ⟨fun _ => true,
          fun p => if p = get_track_file_path 0 "S"
            then some (FileData.csv [(7, Car.mk 7 [])]) else none⟩
        0 "S" false).take 4).countP Event.isSubmit
      = (calc_file_traj_events
          ⟨fun _ => true,
            fun p => if p = get_track_file_path 0 "S"
              then some (FileData.csv [(7, Car.mk 7 [])]) else none⟩
          0 "S" false).countP Event.isSubmit
    ∧ 1 ≤ ((calc_file_traj_events
        ⟨fun _ => true,
          fun p => if p = get_track_file_path 0 "S"
            then some (FileData.csv [(7, Car.mk 7 [])]) else none⟩
        0 "S" false).take 4).countP Event.isBarrier :=
  (claim_C8_write_once_after_barrier
    ⟨fun _ => true,
      fun p => if p = get_track_file_path 0 "S"
        then some (FileData.csv [(7, Car.mk 7 [])]) else none⟩
    0 "S" false).2 4 (by decide)
